import Mathlib

/-!
Verification of the Scriptava activity toolkit.

This file gives a shallow embedding of the two components the claims are
about:

* `src/file_editor/file_editor.py` — the `activity` class: dispatch on the
  file suffix, GPX/TCX metadata and trackpoint extraction, and the
  `summarize` routine.  Parsed XML documents are modelled by the inductive
  type `XML`; the dynamic attribute dictionary of the Python object is
  modelled by a record whose fields are `Option`-valued (`Option.none`
  meaning "attribute was never assigned").  Python runtime failures are
  modelled by `Except PyError`.

* `src/analyzer/analyze_lib.py` — the row-selection pipeline of
  `dataset.annual_analysis` and `dataset.monthly_analysis` (year filter,
  sport filter, distance-threshold filter).  The text/figure output and
  the column sums are not needed by any claim and are not modelled.

Numeric values (Python floats) are modelled by `Rat`; the only float
operations the claims touch are exact comparisons and the parsing of
short decimal literals, which `Rat` models faithfully.
-/

/-- Python runtime errors that the embedded code can raise. -/
inductive PyError : Type where
  | fileNotFoundError   -- `FileNotFoundError` raised in `activity.__init__`
  | typeError           -- `TypeError`: the "Unsupported file format" raise, `float(None)`, `None > 0.0`
  | valueError          -- `ValueError` from `float(...)` on a non-numeric string
  | parseError          -- `xml.etree.ElementTree.ParseError` from `ET.parse`
  | attributeError      -- `AttributeError` from `None.get(...)`
  | indexError          -- out-of-range indexing into the data matrix
  deriving DecidableEq, Repr

/-- A Python value as stored in the extractor's attributes and data rows:
a string, a float (modelled by `Rat`), or `None`. -/
inductive PyVal : Type where
  | vStr (s : String)
  | vNum (q : Rat)
  | vNone
  deriving DecidableEq, Repr

/- A parsed XML element: tag, attribute list, optional text content,
child elements.  Namespace-qualified tags such as `tcx:Id` are modelled
by their local names (`"Id"`): the namespace tables of `read_file` are
fixed bijective renamings and every claim quantifies over documents in
the matching namespace.  The child sequence is the mutually defined
`XMLList` (an isomorphic copy of `List XML`), so that traversals are
structurally recursive. -/
mutual
inductive XML : Type where
  | elem (tag : String) (attrs : List (String × String)) (text : Option String)
      (children : XMLList)
  deriving DecidableEq
inductive XMLList : Type where
  | nil
  | cons (head : XML) (tail : XMLList)
  deriving DecidableEq
end

def XML.tag : XML → String
  | .elem t _ _ _ => t

@[simp] theorem XML.tag_elem (t : String) (a : List (String × String))
    (x : Option String) (cs : XMLList) : (XML.elem t a x cs).tag = t := rfl

def XML.attrs : XML → List (String × String)
  | .elem _ a _ _ => a

def XML.text : XML → Option String
  | .elem _ _ x _ => x

def XML.children : XML → XMLList
  | .elem _ _ _ cs => cs

def XMLList.toList : XMLList → List XML
  | .nil => []
  | .cons e es => e :: es.toList

def XMLList.ofList : List XML → XMLList
  | [] => .nil
  | e :: es => .cons e (XMLList.ofList es)

/-- The children of an element, as a plain list. -/
def XML.childList (e : XML) : List XML :=
  e.children.toList

mutual
/-- An element followed by all its proper descendants, in document
(pre-)order. -/
def XML.descSelf : XML → List XML
  | .elem t a x cs => XML.elem t a x cs :: cs.descList
/-- All elements of a child sequence, each followed by its descendants,
in document (pre-)order. -/
def XMLList.descList : XMLList → List XML
  | .nil => []
  | .cons e es => e.descSelf ++ es.descList
end

/-- All elements of a forest in document (pre-)order: each root followed
by its descendants, then the rest of the forest.  `descAll e.childList`
lists the proper descendants of `e`, which is what an ElementTree `.//`
step iterates over. -/
def descAll (es : List XML) : List XML :=
  es.flatMap XML.descSelf

@[simp] theorem descAll_nil : descAll [] = [] := rfl

theorem descList_eq_descAll_toList : (cs : XMLList) → cs.descList = descAll cs.toList
  | .nil => rfl
  | .cons e es => by
    simp [XMLList.descList, XMLList.toList, descAll,
      descList_eq_descAll_toList es]

theorem descSelf_eq (e : XML) :
    e.descSelf = e :: descAll e.childList := by
  cases e with
  | elem t a x cs =>
    simp [XML.descSelf, XML.childList, XML.children, descList_eq_descAll_toList]

theorem descAll_cons (e : XML) (es : List XML) :
    descAll (e :: es) = e :: (descAll e.childList ++ descAll es) := by
  simp [descAll, descSelf_eq]

/-- One step of the ElementTree path expressions used by the extractor:
`child t` is a `./t` step (direct children), `desc t` is a `.//t` step
(proper descendants at any depth). -/
inductive Step : Type where
  | child (tag : String)
  | desc (tag : String)

/-- Elements selected by one path step from a context element, in
document order. -/
def selStep (s : Step) (e : XML) : List XML :=
  match s with
  | .child t => e.childList.filter (fun c => c.tag == t)
  | .desc t => (descAll e.childList).filter (fun c => c.tag == t)

/-- `findall`: elements selected by a step sequence from a list of context
elements (ElementTree evaluates each step over all matches of the previous
one). -/
def selPath (es : List XML) : List Step → List XML
  | [] => es
  | s :: rest => selPath (es.flatMap (selStep s)) rest

/-- `element.find(path)`: the first match of the path, if any. -/
def findPath (e : XML) (p : List Step) : Option XML :=
  (selPath [e] p).head?

/-- `element.get(key)`: attribute lookup. -/
def XML.getAttr (e : XML) (k : String) : Option String :=
  (e.attrs.find? (fun p => p.1 == k)).map (fun p => p.2)

/-- Numeric value of a list of decimal digit characters. -/
def natOfDigits (cs : List Char) : Nat :=
  cs.foldl (fun n c => 10 * n + (c.toNat - 48)) 0

/-- Nonempty and all decimal digits. -/
def isDigits (cs : List Char) : Bool :=
  !cs.isEmpty && cs.all (fun c => c.isDigit)

/-- Split at the first `'.'`: integer part, and the fractional part when a
dot is present. -/
def splitOnDot : List Char → List Char × Option (List Char)
  | [] => ([], Option.none)
  | c :: cs =>
    if c = '.' then ([], some cs)
    else
      let r := splitOnDot cs
      (c :: r.1, r.2)

/-- Python `float(s)` on the decimal literals that occur in GPX/TCX files:
optional sign, digits, optional fraction.  `Option.none` models the
`ValueError` raise on any other string (exotic accepted forms such as
`"inf"`/`"nan"`/exponents do not occur in these documents and are mapped
to the error case). -/
def parseFloat (s : String) : Option Rat :=
  let go : List Char → Option Rat := fun cs =>
    match splitOnDot cs with
    | (ip, Option.none) =>
        if isDigits ip then some (mkRat (natOfDigits ip) 1) else Option.none
    | (ip, some fp) =>
        if isDigits ip && isDigits fp then
          some (mkRat (natOfDigits (ip ++ fp)) (10 ^ fp.length))
        else Option.none
  match s.toList with
  | '-' :: rest => (go rest).map Rat.neg
  | '+' :: rest => go rest
  | cs => go cs

/-- `activity.__findChildTag__` with `tofloat=False`: the matched child's
text (which may itself be `None`), or the default when no child matches.
Never raises. -/
def findChildTagS (e : XML) (p : List Step) (dflt : PyVal) : PyVal :=
  match findPath e p with
  | Option.none => dflt
  | some r =>
    match r.text with
    | Option.none => PyVal.vNone
    | some s => PyVal.vStr s

/-- `activity.__findChildTag__` with `tofloat=True`: `float(res.text)` of
the matched child, or the default when no child matches.  `float(None)`
raises `TypeError`; `float` of a non-numeric string raises `ValueError`. -/
def findChildTagF (e : XML) (p : List Step) (dflt : PyVal) : Except PyError PyVal :=
  match findPath e p with
  | Option.none => Except.ok dflt
  | some r =>
    match r.text with
    | Option.none => Except.error PyError.typeError
    | some s =>
      match parseFloat s with
      | Option.none => Except.error PyError.valueError
      | some q => Except.ok (PyVal.vNum q)

/-- `activity.__getAttribute__` with `tofloat=False`. -/
def getAttributeS (e : XML) (k : String) (dflt : PyVal) : PyVal :=
  match e.getAttr k with
  | Option.none => dflt
  | some s => PyVal.vStr s

/-- `activity.__getAttribute__` with `tofloat=True` (attribute values are
always strings, so only `ValueError` can arise). -/
def getAttributeF (e : XML) (k : String) (dflt : PyVal) : Except PyError PyVal :=
  match e.getAttr k with
  | Option.none => Except.ok dflt
  | some s =>
    match parseFloat s with
    | Option.none => Except.error PyError.valueError
    | some q => Except.ok (PyVal.vNum q)

/-- One row `[time, lat, lon, ele, dist, bpm]` of the extractor's data
matrix (columns 0–5 of `self.data`). -/
structure Trackpoint : Type where
  time : PyVal
  lat : PyVal
  lon : PyVal
  ele : PyVal
  dist : PyVal
  bpm : PyVal
  deriving DecidableEq, Repr

/-- The attribute dictionary of an `activity` object after extraction.
A field holds `Option.none` exactly when the Python attribute was never
assigned (the `path`, `namespace` and `root` bookkeeping attributes are
not part of the extracted record). -/
structure ActivityRecord : Type where
  sport : Option PyVal
  start_time : Option PyVal
  total_time : Option PyVal
  total_dist : Option PyVal
  calories : Option PyVal
  avg_bpm : Option PyVal
  max_bpm : Option PyVal
  device : Option PyVal
  data : List Trackpoint
  deriving DecidableEq, Repr

/-- Run a fallible body over a list, left to right, stopping at the first
raise — the shape of the Python trackpoint `for` loops. -/
def mapE (f : α → Except PyError β) : List α → Except PyError (List β)
  | [] => Except.ok []
  | a :: as =>
    match f a with
    | Except.error err => Except.error err
    | Except.ok b =>
      match mapE f as with
      | Except.error err => Except.error err
      | Except.ok bs => Except.ok (b :: bs)

/-- Body of the GPX trackpoint loop (`file_editor.py` lines 147–166). -/
def readGpxTrackpoint (tp : XML) : Except PyError Trackpoint := do
  let time := findChildTagS tp [Step.child "time"] PyVal.vNone
  let lat ← getAttributeF tp "lat" PyVal.vNone
  let lon ← getAttributeF tp "lon" PyVal.vNone
  let ele ← findChildTagF tp [Step.child "ele"] PyVal.vNone
  let dist := PyVal.vNum 0
  let bpm ← findChildTagF tp [Step.desc "hr"] PyVal.vNone
  Except.ok { time := time, lat := lat, lon := lon, ele := ele, dist := dist, bpm := bpm }

/-- `activity.read_gpx` (`file_editor.py` lines 113–168). -/
def read_gpx (root : XML) : Except PyError ActivityRecord := do
  let sport := findChildTagS root [Step.desc "type"] (PyVal.vStr "Unknown")
  let start_time := findChildTagS root [Step.desc "metadata", Step.child "time"] (PyVal.vStr "Unknown")
  let data ← mapE readGpxTrackpoint (selPath [root] [Step.desc "trkseg", Step.child "trkpt"])
  Except.ok {
    sport := some sport, start_time := some start_time,
    total_time := some (PyVal.vNum 0), total_dist := some (PyVal.vNum 0),
    calories := some (PyVal.vNum 0), avg_bpm := some (PyVal.vNum 0),
    max_bpm := some (PyVal.vNum 0), device := some (PyVal.vStr "Unknown"),
    data := data }

/-- Body of the TCX trackpoint loop (`file_editor.py` lines 209–228). -/
def readTcxTrackpoint (tp : XML) : Except PyError Trackpoint := do
  let time := findChildTagS tp [Step.child "Time"] PyVal.vNone
  let lat ← findChildTagF tp [Step.child "Position", Step.child "LatitudeDegrees"] PyVal.vNone
  let lon ← findChildTagF tp [Step.child "Position", Step.child "LongitudeDegrees"] PyVal.vNone
  let ele ← findChildTagF tp [Step.child "AltitudeMeters"] PyVal.vNone
  let dist ← findChildTagF tp [Step.child "DistanceMeters"] PyVal.vNone
  let bpm ← findChildTagF tp [Step.child "HeartRateBpm", Step.child "Value"] PyVal.vNone
  Except.ok { time := time, lat := lat, lon := lon, ele := ele, dist := dist, bpm := bpm }

/-- The `.//tcx:Track/tcx:Trackpoint` element list iterated by
`read_tcx`. -/
def tcxTrackpointElems (root : XML) : List XML :=
  selPath [root] [Step.desc "Track", Step.child "Trackpoint"]

/-- `activity.read_tcx` (`file_editor.py` lines 174–230).  Line 183 first
assigns `self.start_time` from `.//tcx:Id` (bound here as `_st_id`), and
line 186 — despite its `total activity time` comment — immediately
reassigns `self.start_time` from `.//tcx:TotalTimeSeconds`, so the final
attribute dictionary carries the `TotalTimeSeconds` number in
`start_time` and has no `total_time` attribute at all. -/
def read_tcx (root : XML) : Except PyError ActivityRecord := do
  let sport ← match findPath root [Step.desc "Activity"] with
    | Option.none => Except.error PyError.attributeError
    | some a => Except.ok (getAttributeS a "Sport" (PyVal.vStr "Unknown"))
  let _st_id := findChildTagS root [Step.desc "Id"] (PyVal.vStr "Unknown")
  let start_time ← findChildTagF root [Step.desc "TotalTimeSeconds"] (PyVal.vNum 0)
  let total_dist ← findChildTagF root [Step.desc "DistanceMeters"] (PyVal.vNum 0)
  let calories ← findChildTagF root [Step.desc "Calories"] (PyVal.vNum 0)
  let avg_bpm ← findChildTagF root [Step.desc "AverageHeartRateBpm", Step.child "Value"] (PyVal.vNum 0)
  let max_bpm ← findChildTagF root [Step.desc "MaximumHeartRateBpm", Step.child "Value"] (PyVal.vNum 0)
  let device := findChildTagS root [Step.desc "Creator", Step.child "Name"] (PyVal.vStr "Unknown")
  let data ← mapE readTcxTrackpoint (tcxTrackpointElems root)
  Except.ok {
    sport := some sport, start_time := some start_time,
    total_time := Option.none, total_dist := some total_dist,
    calories := some calories, avg_bpm := some avg_bpm,
    max_bpm := some max_bpm, device := some device,
    data := data }

/-- Content found at an existing path: a document that parses as
well-formed XML, or one that does not (`ET.parse` raise). -/
inductive FileContent : Type where
  | xml (doc : XML)
  | malformed

/-- A filesystem: which paths exist and what they hold. -/
def FileSystem : Type := String → Option FileContent

/-- Python's `str.endswith`, on the character sequence (case-sensitive
exact suffix match). -/
def strEndsWith (s suf : String) : Bool :=
  List.isSuffixOf suf.toList s.toList

/-- `activity.read_file` (`file_editor.py` lines 47–73): `ET.parse` runs
first (line 49), then the suffix dispatch; an unsupported suffix raises
`TypeError("Unsupported file format...")`. -/
def read_file (path : String) (content : FileContent) : Except PyError ActivityRecord :=
  match content with
  | FileContent.malformed => Except.error PyError.parseError
  | FileContent.xml root =>
    if strEndsWith path ".gpx" then read_gpx root
    else if strEndsWith path ".tcx" then read_tcx root
    else Except.error PyError.typeError

/-- `activity.__init__` (`file_editor.py` lines 31–41): the existence
check precedes any read or parse of the file's content. -/
def activityInit (fs : FileSystem) (path : String) : Except PyError ActivityRecord :=
  match fs path with
  | Option.none => Except.error PyError.fileNotFoundError
  | some content => read_file path content

/-- Python `v > 0.0` as evaluated on a data-matrix cell: comparing `None`
(or a string) with a float raises `TypeError` in Python 3. -/
def pyGtZero (v : PyVal) : Except PyError Bool :=
  match v with
  | PyVal.vNum q => Except.ok (decide (0 < q))
  | PyVal.vStr _ => Except.error PyError.typeError
  | PyVal.vNone => Except.error PyError.typeError

/-- `x is not None`. -/
def isNotNone (v : PyVal) : Bool :=
  match v with
  | PyVal.vNone => false
  | _ => true

/-- The five presence flags printed by `activity.summarize` when the data
matrix has more than two rows. -/
structure TrackFlags : Type where
  with_time : Bool
  with_coord : Bool
  with_ele : Bool
  with_dist : Bool
  with_bpm : Bool
  deriving DecidableEq, Repr

/-- The track-data portion of `activity.summarize` (`file_editor.py`
lines 250–260): with `n = data.shape[0]`, the detail flags are computed
only when `n > 2`, from `data[0,0]`, `data[0,1]`, `data[0,2]`,
`data[0,3]`, `data[1,4]`, `data[0,5]`.  Result `Except.ok Option.none`
means the routine returned after printing only the row count, without
detail flags; the metadata printing that precedes this block cannot
raise and is not modelled. -/
def summarize (data : List Trackpoint) : Except PyError (Option TrackFlags) :=
  let n := data.length
  if 2 < n then
    match data.get? 0, data.get? 1 with
    | some p0, some p1 =>
      match pyGtZero p1.dist with
      | Except.error err => Except.error err
      | Except.ok wd =>
        Except.ok (some {
          with_time := isNotNone p0.time,
          with_coord := isNotNone p0.lat && isNotNone p0.lon,
          with_ele := isNotNone p0.ele,
          with_dist := wd,
          with_bpm := isNotNone p0.bpm })
    | _, _ => Except.error PyError.indexError
  else Except.ok Option.none

/-- One row of the Strava CSV export as consumed by the analyzer's
filtering pipeline: activity date (year and month after the
`pd.to_datetime` conversion), activity type, and `Distance.1` in meters.
The remaining kept columns feed only the sums and text output, which no
claim is about. -/
structure CsvActivity : Type where
  year : Nat
  month : Nat
  sport : String
  distance : Rat
  deriving DecidableEq, Repr

/-- Shared head of `dataset.annual_analysis` and
`dataset.monthly_analysis` (`analyze_lib.py` lines 138–141 and 220–223):
keep the selected year, then the selected sport unless it is `'All'`. -/
def selectYearSport (rows : List CsvActivity) (year : Nat) (sport : String) :
    List CsvActivity :=
  let df := rows.filter (fun r => r.year == year)
  if sport ≠ "All" then df.filter (fun r => r.sport == sport) else df

/-- The activities that survive into part III of
`dataset.annual_analysis` (`analyze_lib.py` line 158): when a positive
threshold is given, keep rows with `Distance.1 > threshold` (strict). -/
def annualRetained (rows : List CsvActivity) (year : Nat) (sport : String)
    (threshold : Rat) : List CsvActivity :=
  let df := selectYearSport rows year sport
  if 0 < threshold then df.filter (fun r => decide (threshold < r.distance)) else df

/-- The activities of one month that survive the threshold filter of
`dataset.monthly_analysis` (`analyze_lib.py` lines 260 and 272): keep the
month's rows, then — when a positive threshold is given — those with
`Distance.1 >= threshold` (non-strict). -/
def monthlyRetained (rows : List CsvActivity) (year : Nat) (sport : String)
    (month : Nat) (threshold : Rat) : List CsvActivity :=
  let df := selectYearSport rows year sport
  let dfi := df.filter (fun r => r.month == month)
  if 0 < threshold then dfi.filter (fun r => decide (threshold ≤ r.distance)) else dfi

/-- Build an element from a plain child list. -/
def el (tag : String) (attrs : List (String × String)) (text : Option String)
    (children : List XML) : XML :=
  XML.elem tag attrs text (XMLList.ofList children)

/-- C4: for every path that does not exist on the filesystem, construction
fails with the `FileNotFound` error; the check happens before any parsing,
so the result is `FileNotFoundError` whatever the filesystem holds
elsewhere and whatever the path's suffix is. -/
theorem c4_missing_file_filenotfound (fs : FileSystem) (path : String)
    (h : fs path = Option.none) :
    activityInit fs path = Except.error PyError.fileNotFoundError := by
  simp [activityInit, h]

theorem c4_missing_file_filenotfound_witness :
    ((fun _ => Option.none : FileSystem) "run.fit" = Option.none) ∧
    activityInit (fun _ => Option.none) "run.fit"
      = Except.error PyError.fileNotFoundError :=
  ⟨rfl, c4_missing_file_filenotfound (fun _ => Option.none) "run.fit" rfl⟩

/-- A filesystem holding a single `.fit` file whose content is not
well-formed XML. -/
def fsMalformedFit : FileSystem :=
  fun p => if p = "activity.fit" then some FileContent.malformed else Option.none

/-- C3 counterexample: an existing file whose path ends in neither `.gpx`
nor `.tcx` need not fail with the `UnsupportedFormat` error — `ET.parse`
runs before the suffix dispatch (`read_file` line 49), so a `.fit` file
with malformed content fails with the XML `ParseError` instead. -/
theorem c3_malformed_fit_not_unsupported :
    activityInit fsMalformedFit "activity.fit" = Except.error PyError.parseError ∧
    PyError.parseError ≠ PyError.typeError :=
  ⟨rfl, by decide⟩

/-- C3 (amended): for every existing file whose content is well-formed XML
and whose path ends in neither `.gpx` nor `.tcx` (case-sensitive suffix
match), construction fails with the `UnsupportedFormat` error
(`TypeError`), the decision depending only on the name suffix; a
malformed file fails with the XML parse error first. -/
theorem c3_unsupported_suffix_typeerror (fs : FileSystem) (path : String)
    (doc : XML) (hfs : fs path = some (FileContent.xml doc))
    (hgpx : strEndsWith path ".gpx" = false)
    (htcx : strEndsWith path ".tcx" = false) :
    activityInit fs path = Except.error PyError.typeError := by
  simp [activityInit, hfs, read_file, hgpx, htcx]

/-- A filesystem holding a single well-formed `.fit` file. -/
def fsXmlFit : FileSystem :=
  fun p => if p = "activity.fit" then some (FileContent.xml (el "root" [] Option.none []))
    else Option.none

theorem c3_unsupported_suffix_typeerror_witness :
    fsXmlFit "activity.fit" = some (FileContent.xml (el "root" [] Option.none [])) ∧
    strEndsWith "activity.fit" ".gpx" = false ∧
    strEndsWith "activity.fit" ".tcx" = false ∧
    activityInit fsXmlFit "activity.fit" = Except.error PyError.typeError :=
  ⟨rfl, by decide, by decide,
    c3_unsupported_suffix_typeerror fsXmlFit "activity.fit"
      (el "root" [] Option.none []) rfl (by decide) (by decide)⟩

/-- C10: for every positive distance threshold, `annual_analysis` retains
only activities with distance strictly greater than the threshold
(line 158, `>`), while `monthly_analysis` retains activities with
distance greater than or equal to it (line 272, `>=`); an activity whose
distance equals the threshold is therefore excluded from the annual
summary but included in the monthly summary of the same year, sport and
threshold. -/
theorem c10_threshold_boundary (rows : List CsvActivity) (year month : Nat)
    (sport : String) (thr : Rat) (r : CsvActivity)
    (hthr : 0 < thr) (hmem : r ∈ rows) (hy : r.year = year)
    (hs : sport = "All" ∨ r.sport = sport) (hm : r.month = month)
    (hd : r.distance = thr) :
    (∀ a ∈ annualRetained rows year sport thr, thr < a.distance) ∧
    (∀ a ∈ monthlyRetained rows year sport month thr, thr ≤ a.distance) ∧
    r ∉ annualRetained rows year sport thr ∧
    r ∈ monthlyRetained rows year sport month thr := by
  have hy' : r ∈ selectYearSport rows year sport := by
    rcases hs with hs | hs
    · simp [selectYearSport, hs, List.mem_filter, hmem, hy]
    · by_cases hall : sport = "All"
      · simp [selectYearSport, hall, List.mem_filter, hmem, hy]
      · simp [selectYearSport, hall, List.mem_filter, hmem, hy, hs]
  refine ⟨?_, ?_, ?_, ?_⟩
  · intro a ha
    simp only [annualRetained, if_pos hthr, List.mem_filter, decide_eq_true_eq] at ha
    exact ha.2
  · intro a ha
    simp only [monthlyRetained, if_pos hthr, List.mem_filter, decide_eq_true_eq] at ha
    exact ha.2
  · intro hcontra
    simp only [annualRetained, if_pos hthr, List.mem_filter, decide_eq_true_eq] at hcontra
    exact absurd hcontra.2 (by simp [hd])
  · simp only [monthlyRetained, if_pos hthr, List.mem_filter, decide_eq_true_eq]
    exact ⟨⟨hy', by simp [hm]⟩, le_of_eq hd.symm⟩

/-- A single-row CSV dataset at the threshold boundary. -/
def csvRowAtThreshold : CsvActivity :=
  { year := 2024, month := 5, sport := "Run", distance := 5000 }

theorem c10_threshold_boundary_witness :
    (0 : Rat) < 5000 ∧
    csvRowAtThreshold ∈ [csvRowAtThreshold] ∧
    csvRowAtThreshold ∉ annualRetained [csvRowAtThreshold] 2024 "Run" 5000 ∧
    csvRowAtThreshold ∈ monthlyRetained [csvRowAtThreshold] 2024 "Run" 5 5000 := by
  have h := c10_threshold_boundary [csvRowAtThreshold] 2024 5 "Run" 5000
    csvRowAtThreshold (by decide) (by decide) rfl (Or.inr rfl) rfl rfl
  exact ⟨by decide, by decide, h.2.2.1, h.2.2.2⟩

/-- C8: on a record with fewer than three trackpoints (in particular
exactly two), `summarize` returns without the detail flags and raises no
error — in particular no out-of-range index access. -/
theorem c8_short_track_no_flags (data : List Trackpoint) (h : data.length < 3) :
    summarize data = Except.ok Option.none := by
  simp only [summarize]
  rw [if_neg (by omega)]

/-- A trackpoint row with every field present. -/
def fullTp : Trackpoint :=
  { time := PyVal.vStr "2024-01-01T10:00:00Z", lat := PyVal.vNum 45,
    lon := PyVal.vNum 7, ele := PyVal.vNum 1000, dist := PyVal.vNum 50,
    bpm := PyVal.vNum 120 }

theorem c8_short_track_no_flags_witness :
    ([fullTp, fullTp] : List Trackpoint).length < 3 ∧
    summarize [fullTp, fullTp] = Except.ok Option.none :=
  ⟨by decide, c8_short_track_no_flags [fullTp, fullTp] (by decide)⟩

/-- Success of `mapE` preserves the list length. -/
theorem mapE_ok_length {α β : Type} (f : α → Except PyError β) :
    (l : List α) → (l' : List β) → mapE f l = Except.ok l' → l'.length = l.length
  | [], l', h => by
    simp only [mapE] at h
    cases h
    rfl
  | a :: as, l', h => by
    simp only [mapE] at h
    cases hf : f a with
    | error e => rw [hf] at h; cases h
    | ok b =>
      rw [hf] at h
      cases hrest : mapE f as with
      | error e => rw [hrest] at h; cases h
      | ok bs =>
        rw [hrest] at h
        cases h
        simp [mapE_ok_length f as bs hrest]

/-- Success of `mapE` maps positions one to one: the output at index `i`
is the successful image of the input at index `i`. -/
theorem mapE_ok_get {α β : Type} (f : α → Except PyError β) :
    (l : List α) → (l' : List β) → mapE f l = Except.ok l' →
    (i : Nat) → (a : α) → l.get? i = some a →
    ∃ b, f a = Except.ok b ∧ l'.get? i = some b
  | [], l', h, i, a, ha => by cases ha
  | x :: xs, l', h, i, a, ha => by
    simp only [mapE] at h
    cases hf : f x with
    | error e => rw [hf] at h; cases h
    | ok b =>
      rw [hf] at h
      cases hrest : mapE f xs with
      | error e => rw [hrest] at h; cases h
      | ok bs =>
        rw [hrest] at h
        cases h
        cases i with
        | zero =>
          cases ha
          exact ⟨b, hf, rfl⟩
        | succ j =>
          exact mapE_ok_get f xs bs hrest j a ha

/-- Inversion of a successful `read_tcx`: the record's fields are the
values produced by the corresponding lookups, `total_time` is never
assigned, and the data rows are the successfully parsed trackpoint
elements. -/
theorem read_tcx_ok_inv (root : XML) (rec : ActivityRecord)
    (h : read_tcx root = Except.ok rec) :
    (∃ st, findChildTagF root [Step.desc "TotalTimeSeconds"] (PyVal.vNum 0)
        = Except.ok st ∧ rec.start_time = some st) ∧
    rec.total_time = Option.none ∧
    (∃ c, findChildTagF root [Step.desc "Calories"] (PyVal.vNum 0)
        = Except.ok c ∧ rec.calories = some c) ∧
    mapE readTcxTrackpoint (tcxTrackpointElems root) = Except.ok rec.data := by
  unfold read_tcx at h
  simp only [bind, Except.bind] at h
  split at h
  · cases h
  · split at h
    · cases h
    · split at h
      · cases h
      · split at h
        · cases h
        · split at h
          · cases h
          · split at h
            · cases h
            · split at h
              · cases h
              · cases h
                refine ⟨⟨_, ?_, rfl⟩, rfl, ⟨_, ?_, rfl⟩, ?_⟩ <;> assumption

/-- Inversion of a successful TCX trackpoint parse: the row's `dist` cell
is the value produced by the `./tcx:DistanceMeters` lookup. -/
theorem readTcxTrackpoint_ok_dist (e : XML) (tp : Trackpoint)
    (h : readTcxTrackpoint e = Except.ok tp) :
    findChildTagF e [Step.child "DistanceMeters"] PyVal.vNone = Except.ok tp.dist := by
  unfold readTcxTrackpoint at h
  simp only [bind, Except.bind] at h
  split at h
  · cases h
  · split at h
    · cases h
    · split at h
      · cases h
      · split at h
        · cases h
        · split at h
          · cases h
          · cases h
            assumption

/-- A `./t` find over an element none of whose children carries tag `t`
matches nothing. -/
theorem findPath_child_eq_none (e : XML) (t : String)
    (h : ∀ c ∈ e.childList, c.tag ≠ t) :
    findPath e [Step.child t] = Option.none := by
  simp only [findPath, selPath, selStep, List.flatMap_cons, List.flatMap_nil,
    List.append_nil]
  rw [List.filter_eq_nil_iff.mpr (by simpa using h)]
  rfl

/-- A `.//t` find over a document none of whose proper descendants
carries tag `t` matches nothing. -/
theorem findPath_desc_eq_none (e : XML) (t : String)
    (h : ∀ c ∈ descAll e.childList, c.tag ≠ t) :
    findPath e [Step.desc t] = Option.none := by
  simp only [findPath, selPath, selStep, List.flatMap_cons, List.flatMap_nil,
    List.append_nil]
  rw [List.filter_eq_nil_iff.mpr (by simpa using h)]
  rfl

/-- C7: for every TCX document with no `Calories` element, a successful
extraction sets `calories` to exactly 0.0, the default of the generic
lookup helper. -/
theorem c7_missing_calories_default (root : XML) (rec : ActivityRecord)
    (hnc : ∀ e ∈ descAll root.childList, e.tag ≠ "Calories")
    (hok : read_tcx root = Except.ok rec) :
    rec.calories = some (PyVal.vNum 0) := by
  obtain ⟨-, -, ⟨c, hc, hcal⟩, -⟩ := read_tcx_ok_inv root rec hok
  rw [findChildTagF, findPath_desc_eq_none root "Calories" hnc] at hc
  cases hc
  exact hcal

/-- A minimal TCX document: one `Activity` with `Sport="Running"`, an
`Id` timestamp, one `Lap` carrying `TotalTimeSeconds`, no `Calories`, no
trackpoints. -/
def tcxDoc1 : XML :=
  el "TrainingCenterDatabase" [] Option.none [
    el "Activities" [] Option.none [
      el "Activity" [("Sport", "Running")] Option.none [
        el "Id" [] (some "2024-01-01T10:00:00Z") [],
        el "Lap" [] Option.none [
          el "TotalTimeSeconds" [] (some "100") []]]]]

/-- The record `read_tcx` extracts from `tcxDoc1`. -/
def tcxRec1 : ActivityRecord :=
  { sport := some (PyVal.vStr "Running"), start_time := some (PyVal.vNum 100),
    total_time := Option.none, total_dist := some (PyVal.vNum 0),
    calories := some (PyVal.vNum 0), avg_bpm := some (PyVal.vNum 0),
    max_bpm := some (PyVal.vNum 0), device := some (PyVal.vStr "Unknown"),
    data := [] }

/-- C1 (code bug): after successful extraction of `tcxDoc1`, whose first
`Id` element reads `2024-01-01T10:00:00Z`, the record's `start_time` is
the numeric `TotalTimeSeconds` value 100.0, not the `Id` text — line 186
of `file_editor.py` (commented `total activity time`) reassigns
`self.start_time` right after line 183 set it from `Id`. -/
theorem c1_tcx_start_time_overwritten :
    (∃ idElem, findPath tcxDoc1 [Step.desc "Id"] = some idElem ∧
        idElem.text = some "2024-01-01T10:00:00Z") ∧
    read_tcx tcxDoc1 = Except.ok tcxRec1 ∧
    tcxRec1.start_time = some (PyVal.vNum 100) ∧
    tcxRec1.start_time ≠ some (PyVal.vStr "2024-01-01T10:00:00Z") :=
  ⟨⟨el "Id" [] (some "2024-01-01T10:00:00Z") [], rfl, rfl⟩, rfl, rfl, by decide⟩

/-- C2 (code bug): on the successfully parsed TCX file `tcxDoc1`, seven
of the eight metadata attributes are set, but `total_time` is never
assigned — the `TotalTimeSeconds` value lands in `start_time` instead
(line 186), so the TCX reader leaves `total_time_seconds` unset. -/
theorem c2_tcx_total_time_unset :
    read_tcx tcxDoc1 = Except.ok tcxRec1 ∧
    tcxRec1.sport.isSome = true ∧ tcxRec1.start_time.isSome = true ∧
    tcxRec1.total_dist.isSome = true ∧ tcxRec1.calories.isSome = true ∧
    tcxRec1.avg_bpm.isSome = true ∧ tcxRec1.max_bpm.isSome = true ∧
    tcxRec1.device.isSome = true ∧ tcxRec1.total_time = Option.none :=
  ⟨rfl, rfl, rfl, rfl, rfl, rfl, rfl, rfl, rfl⟩

theorem c7_missing_calories_default_witness :
    (∀ e ∈ descAll tcxDoc1.childList, e.tag ≠ "Calories") ∧
    read_tcx tcxDoc1 = Except.ok tcxRec1 ∧
    tcxRec1.calories = some (PyVal.vNum 0) :=
  ⟨by decide, rfl, c7_missing_calories_default tcxDoc1 tcxRec1 (by decide) rfl⟩

/-- C9: a record parsed from a TCX file with more than two trackpoints
whose second trackpoint element has no `DistanceMeters` child carries the
absent sentinel `None` in `data[1,4]`; `summarize` then fails with
`TypeError` on `self.data[1,4] > 0.0` instead of printing the
distance-presence flag. -/
theorem c9_none_dist_typeerror (root : XML) (rec : ActivityRecord)
    (hparse : read_tcx root = Except.ok rec)
    (hlen : 2 < rec.data.length)
    (e1 : XML) (he1 : (tcxTrackpointElems root).get? 1 = some e1)
    (hnodm : ∀ c ∈ e1.childList, c.tag ≠ "DistanceMeters") :
    summarize rec.data = Except.error PyError.typeError := by
  obtain ⟨-, -, -, hmap⟩ := read_tcx_ok_inv root rec hparse
  obtain ⟨p1, hp1f, hp1⟩ := mapE_ok_get readTcxTrackpoint _ _ hmap 1 e1 he1
  have hdistF := readTcxTrackpoint_ok_dist e1 p1 hp1f
  rw [findChildTagF, findPath_child_eq_none e1 "DistanceMeters" hnodm] at hdistF
  have hd : p1.dist = PyVal.vNone := by simpa using hdistF.symm
  simp only [summarize]
  rw [if_pos hlen]
  cases hg0 : rec.data.get? 0 with
  | none =>
    rw [List.get?_eq_none] at hg0
    omega
  | some p0 =>
    rw [hp1]
    simp [pyGtZero, hd]

/-- The second trackpoint of `tcxDoc2`: a `Time` child but no
`DistanceMeters`. -/
def tcxTp2 : XML :=
  el "Trackpoint" [] Option.none [
    el "Time" [] (some "2024-01-02T10:00:10Z") []]

/-- A TCX document with three trackpoints whose second one lacks a
`DistanceMeters` child. -/
def tcxDoc2 : XML :=
  el "TrainingCenterDatabase" [] Option.none [
    el "Activities" [] Option.none [
      el "Activity" [("Sport", "Running")] Option.none [
        el "Id" [] (some "2024-01-02T10:00:00Z") [],
        el "Lap" [] Option.none [
          el "TotalTimeSeconds" [] (some "30") [],
          el "Track" [] Option.none [
            el "Trackpoint" [] Option.none [
              el "Time" [] (some "2024-01-02T10:00:00Z") [],
              el "DistanceMeters" [] (some "0") []],
            tcxTp2,
            el "Trackpoint" [] Option.none [
              el "Time" [] (some "2024-01-02T10:00:20Z") [],
              el "DistanceMeters" [] (some "50") []]]]]]]

/-- The record `read_tcx` extracts from `tcxDoc2`. -/
def tcxRec2 : ActivityRecord :=
  { sport := some (PyVal.vStr "Running"), start_time := some (PyVal.vNum 30),
    total_time := Option.none, total_dist := some (PyVal.vNum 0),
    calories := some (PyVal.vNum 0), avg_bpm := some (PyVal.vNum 0),
    max_bpm := some (PyVal.vNum 0), device := some (PyVal.vStr "Unknown"),
    data := [
      { time := PyVal.vStr "2024-01-02T10:00:00Z", lat := PyVal.vNone,
        lon := PyVal.vNone, ele := PyVal.vNone, dist := PyVal.vNum 0,
        bpm := PyVal.vNone },
      { time := PyVal.vStr "2024-01-02T10:00:10Z", lat := PyVal.vNone,
        lon := PyVal.vNone, ele := PyVal.vNone, dist := PyVal.vNone,
        bpm := PyVal.vNone },
      { time := PyVal.vStr "2024-01-02T10:00:20Z", lat := PyVal.vNone,
        lon := PyVal.vNone, ele := PyVal.vNone, dist := PyVal.vNum 50,
        bpm := PyVal.vNone }] }

theorem c9_none_dist_typeerror_witness :
    read_tcx tcxDoc2 = Except.ok tcxRec2 ∧
    2 < tcxRec2.data.length ∧
    (tcxTrackpointElems tcxDoc2).get? 1 = some tcxTp2 ∧
    summarize tcxRec2.data = Except.error PyError.typeError :=
  ⟨rfl, by decide, rfl,
    c9_none_dist_typeerror tcxDoc2 tcxRec2 rfl (by decide) tcxTp2 rfl (by decide)⟩

/-- A successfully parsed GPX trackpoint row always carries the constant
0.0 in its `dist` cell (`file_editor.py` line 160). -/
theorem readGpxTrackpoint_ok_dist (e : XML) (tp : Trackpoint)
    (h : readGpxTrackpoint e = Except.ok tp) :
    tp.dist = PyVal.vNum 0 := by
  unfold readGpxTrackpoint at h
  simp only [bind, Except.bind] at h
  split at h
  · cases h
  · split at h
    · cases h
    · split at h
      · cases h
      · split at h
        · cases h
        · cases h
          rfl

/-- A property of every successful image of `f` holds of every member of
a successful `mapE f` output. -/
theorem mapE_ok_forall {α β : Type} (f : α → Except PyError β)
    (P : β → Prop) (hf : ∀ a b, f a = Except.ok b → P b) :
    (l : List α) → (l' : List β) → mapE f l = Except.ok l' → ∀ b ∈ l', P b
  | [], l', h => by
    simp only [mapE] at h
    cases h
    intro b hb
    cases hb
  | a :: as, l', h => by
    simp only [mapE] at h
    cases hfa : f a with
    | error e => rw [hfa] at h; cases h
    | ok b0 =>
      rw [hfa] at h
      cases hrest : mapE f as with
      | error e => rw [hrest] at h; cases h
      | ok bs =>
        rw [hrest] at h
        cases h
        intro b hb
        cases hb with
        | head => exact hf a b0 hfa
        | tail _ hb => exact mapE_ok_forall f P hf as bs hrest b hb

/-- Inversion of a successful `read_gpx`: the five numeric metadata
fields are the constant 0.0, the device is `"Unknown"`, and the data rows
are the successfully parsed trackpoint elements. -/
theorem read_gpx_ok_inv (root : XML) (rec : ActivityRecord)
    (h : read_gpx root = Except.ok rec) :
    rec.total_time = some (PyVal.vNum 0) ∧ rec.total_dist = some (PyVal.vNum 0) ∧
    rec.calories = some (PyVal.vNum 0) ∧ rec.avg_bpm = some (PyVal.vNum 0) ∧
    rec.max_bpm = some (PyVal.vNum 0) ∧ rec.device = some (PyVal.vStr "Unknown") ∧
    mapE readGpxTrackpoint (selPath [root] [Step.desc "trkseg", Step.child "trkpt"])
      = Except.ok rec.data := by
  unfold read_gpx at h
  simp only [bind, Except.bind] at h
  split at h
  · cases h
  · cases h
    refine ⟨rfl, rfl, rfl, rfl, rfl, rfl, ?_⟩
    assumption

/-- C6: after any successful GPX extraction, `dist` is 0.0 in every
trackpoint row, the five numeric metadata fields are exactly 0.0, and the
device is `"Unknown"`, whatever the document contains. -/
theorem c6_gpx_fixed_defaults (root : XML) (rec : ActivityRecord)
    (h : read_gpx root = Except.ok rec) :
    rec.total_time = some (PyVal.vNum 0) ∧ rec.total_dist = some (PyVal.vNum 0) ∧
    rec.calories = some (PyVal.vNum 0) ∧ rec.avg_bpm = some (PyVal.vNum 0) ∧
    rec.max_bpm = some (PyVal.vNum 0) ∧ rec.device = some (PyVal.vStr "Unknown") ∧
    ∀ tp ∈ rec.data, tp.dist = PyVal.vNum 0 := by
  obtain ⟨h1, h2, h3, h4, h5, h6, hmap⟩ := read_gpx_ok_inv root rec h
  exact ⟨h1, h2, h3, h4, h5, h6,
    mapE_ok_forall readGpxTrackpoint (fun tp => tp.dist = PyVal.vNum 0)
      readGpxTrackpoint_ok_dist _ rec.data hmap⟩

/-- A GPX document with one metadata time, one type, and one trackpoint
carrying latitude, longitude, elevation and time. -/
def gpxDoc1 : XML :=
  el "gpx" [] Option.none [
    el "metadata" [] Option.none [
      el "time" [] (some "2024-03-01T09:00:00Z") []],
    el "trk" [] Option.none [
      el "type" [] (some "running") [],
      el "trkseg" [] Option.none [
        el "trkpt" [("lat", "45.5"), ("lon", "7.25")] Option.none [
          el "ele" [] (some "1000.5") [],
          el "time" [] (some "2024-03-01T09:01:00Z") []]]]]

/-- The record `read_gpx` extracts from `gpxDoc1`. -/
def gpxRec1 : ActivityRecord :=
  { sport := some (PyVal.vStr "running"),
    start_time := some (PyVal.vStr "2024-03-01T09:00:00Z"),
    total_time := some (PyVal.vNum 0), total_dist := some (PyVal.vNum 0),
    calories := some (PyVal.vNum 0), avg_bpm := some (PyVal.vNum 0),
    max_bpm := some (PyVal.vNum 0), device := some (PyVal.vStr "Unknown"),
    data := [
      { time := PyVal.vStr "2024-03-01T09:01:00Z", lat := PyVal.vNum (mkRat 455 10),
        lon := PyVal.vNum (mkRat 725 100), ele := PyVal.vNum (mkRat 10005 10),
        dist := PyVal.vNum 0, bpm := PyVal.vNone }] }

theorem c6_gpx_fixed_defaults_witness :
    read_gpx gpxDoc1 = Except.ok gpxRec1 ∧
    gpxRec1.total_time = some (PyVal.vNum 0) ∧
    gpxRec1.device = some (PyVal.vStr "Unknown") ∧
    ∀ tp ∈ gpxRec1.data, tp.dist = PyVal.vNum 0 := by
  have h := c6_gpx_fixed_defaults gpxDoc1 gpxRec1 rfl
  exact ⟨rfl, h.1, h.2.2.2.2.2.1, h.2.2.2.2.2.2⟩

/-- Trackpoint-tagged children of an element. -/
def childTPs (f : XML) : List XML :=
  f.childList.filter (fun c => c.tag == "Trackpoint")

mutual

theorem tp_absorb_elem : (e : XML) →
    (∀ f ∈ e.descSelf, ∀ c ∈ f.childList, c.tag ≠ "Trackpoint") →
    e.descSelf.filter (fun x => x.tag == "Trackpoint")
      = [e].filter (fun x => x.tag == "Trackpoint")
  | XML.elem t a x cs, h => by
    have hhead : ∀ c ∈ (XML.elem t a x cs).childList, c.tag ≠ "Trackpoint" :=
      h (XML.elem t a x cs) (by simp [XML.descSelf])
    have htail : ∀ f ∈ cs.descList, ∀ c ∈ f.childList, c.tag ≠ "Trackpoint" :=
      fun f hf => h f (by simp [XML.descSelf, hf])
    have hcs := tp_absorb_list cs htail
    have hnil : cs.toList.filter (fun x => x.tag == "Trackpoint") = [] := by
      refine List.filter_eq_nil_iff.mpr ?_
      intro c hc
      simpa using hhead c (by simpa [XML.childList, XML.children] using hc)
    simp [XML.descSelf, List.filter_cons, hcs, hnil]

theorem tp_absorb_list : (cs : XMLList) →
    (∀ f ∈ cs.descList, ∀ c ∈ f.childList, c.tag ≠ "Trackpoint") →
    cs.descList.filter (fun x => x.tag == "Trackpoint")
      = cs.toList.filter (fun x => x.tag == "Trackpoint")
  | XMLList.nil, _ => rfl
  | XMLList.cons e es, h => by
    have h1 := tp_absorb_elem e (fun f hf => h f (by simp [XMLList.descList, hf]))
    have h2 := tp_absorb_list es (fun f hf => h f (by simp [XMLList.descList, hf]))
    simp [XMLList.descList, XMLList.toList, List.filter_append, List.filter_cons, h1, h2]
    split <;> simp

end

mutual

theorem track_bind_elem : (e : XML) →
    (∀ f ∈ e.descSelf, f.tag = "Track" → ∀ d ∈ descAll f.childList, d.tag ≠ "Track") →
    (∀ f ∈ e.descSelf, f.tag ≠ "Track" → ∀ c ∈ f.childList, c.tag ≠ "Trackpoint") →
    e.tag ≠ "Trackpoint" →
    (e.descSelf.filter (fun x => x.tag == "Track")).flatMap childTPs
      = e.descSelf.filter (fun x => x.tag == "Trackpoint")
  | XML.elem t a x cs, h1, h2, h3 => by
    have hdl : (XML.elem t a x cs).childList = cs.toList := rfl
    have hcseq : cs.descList = descAll cs.toList := descList_eq_descAll_toList cs
    by_cases ht : t = "Track"
    · have hnd : ∀ d ∈ descAll (XML.elem t a x cs).childList, d.tag ≠ "Track" :=
        h1 (XML.elem t a x cs) (by simp [XML.descSelf]) (by simp [XML.tag, ht])
      have hTnil : cs.descList.filter (fun x => x.tag == "Track") = [] := by
        refine List.filter_eq_nil_iff.mpr ?_
        intro d hd
        have hd' : d ∈ descAll (XML.elem t a x cs).childList := by
          rw [hdl, ← hcseq]; exact hd
        simpa using hnd d hd'
      have habs : ∀ f ∈ cs.descList, ∀ c ∈ f.childList, c.tag ≠ "Trackpoint" := by
        intro f hf
        have hfnt : f.tag ≠ "Track" := by
          have hf' : f ∈ descAll (XML.elem t a x cs).childList := by
            rw [hdl, ← hcseq]; exact hf
          exact hnd f hf'
        exact h2 f (by simp [XML.descSelf, hf]) hfnt
      have habs' := tp_absorb_list cs habs
      simp [XML.descSelf, List.filter_cons, ht, hTnil, habs', childTPs,
        XML.childList, XML.children]
    · have hch : ∀ c ∈ (XML.elem t a x cs).childList, c.tag ≠ "Trackpoint" :=
        h2 (XML.elem t a x cs) (by simp [XML.descSelf]) (by simpa [XML.tag] using ht)
      have h1' : ∀ f ∈ cs.descList, f.tag = "Track" →
          ∀ d ∈ descAll f.childList, d.tag ≠ "Track" :=
        fun f hf => h1 f (by simp [XML.descSelf, hf])
      have h2' : ∀ f ∈ cs.descList, f.tag ≠ "Track" →
          ∀ c ∈ f.childList, c.tag ≠ "Trackpoint" :=
        fun f hf => h2 f (by simp [XML.descSelf, hf])
      have h3' : ∀ f ∈ cs.toList, f.tag ≠ "Trackpoint" := by
        intro f hf
        exact hch f (by simpa [XML.childList, XML.children] using hf)
      have ih := track_bind_list cs h1' h2' h3'
      have h3t : t ≠ "Trackpoint" := by simpa using h3
      simp [XML.descSelf, List.filter_cons, ht, ih, h3t]

theorem track_bind_list : (cs : XMLList) →
    (∀ f ∈ cs.descList, f.tag = "Track" → ∀ d ∈ descAll f.childList, d.tag ≠ "Track") →
    (∀ f ∈ cs.descList, f.tag ≠ "Track" → ∀ c ∈ f.childList, c.tag ≠ "Trackpoint") →
    (∀ f ∈ cs.toList, f.tag ≠ "Trackpoint") →
    (cs.descList.filter (fun x => x.tag == "Track")).flatMap childTPs
      = cs.descList.filter (fun x => x.tag == "Trackpoint")
  | XMLList.nil, _, _, _ => rfl
  | XMLList.cons e es, h1, h2, h3 => by
    have ihe := track_bind_elem e (fun f hf => h1 f (by simp [XMLList.descList, hf]))
      (fun f hf => h2 f (by simp [XMLList.descList, hf]))
      (h3 e (by simp [XMLList.toList]))
    have ihs := track_bind_list es (fun f hf => h1 f (by simp [XMLList.descList, hf]))
      (fun f hf => h2 f (by simp [XMLList.descList, hf]))
      (fun f hf => h3 f (by simp [XMLList.toList, hf]))
    simp [XMLList.descList, List.filter_append, List.flatMap_append, ihe, ihs]

end

/-- Structural validity of a TCX document, as the schema guarantees it:
`Track` elements are not nested inside one another, `Trackpoint`
elements only occur as children of `Track` elements, and the root's
direct children are not `Trackpoint`s. -/
@[reducible] def ValidTcx (root : XML) : Prop :=
  (∀ f ∈ descAll root.childList, f.tag = "Track" →
    ∀ d ∈ descAll f.childList, d.tag ≠ "Track") ∧
  (∀ f ∈ descAll root.childList, f.tag ≠ "Track" →
    ∀ c ∈ f.childList, c.tag ≠ "Trackpoint") ∧
  (∀ c ∈ root.childList, c.tag ≠ "Trackpoint")

/-- The number of `Trackpoint` elements in the document, and the
document-order list of them. -/
def docTrackpoints (root : XML) : List XML :=
  (descAll root.childList).filter (fun e => e.tag == "Trackpoint")

def countTrackpoints (root : XML) : Nat :=
  (docTrackpoints root).length

/-- On a valid TCX document, the `.//Track/Trackpoint` iteration of
`read_tcx` visits exactly the `Trackpoint` elements of the document, in
document order. -/
theorem tcx_trackpoint_elems_eq (root : XML) (hv : ValidTcx root) :
    tcxTrackpointElems root = docTrackpoints root := by
  obtain ⟨h1, h2, h3⟩ := hv
  have hroot : descAll root.childList = root.children.descList :=
    (descList_eq_descAll_toList root.children).symm
  have hstep : tcxTrackpointElems root
      = ((descAll root.childList).filter (fun x => x.tag == "Track")).flatMap childTPs := by
    simp [tcxTrackpointElems, selPath, selStep, childTPs]
    try rfl
  rw [hstep, docTrackpoints, hroot]
  exact track_bind_list root.children
    (by rw [← hroot]; exact h1) (by rw [← hroot]; exact h2) h3

/-- C5: for every valid TCX document with N `Trackpoint` elements and
every successful extraction, the data matrix has exactly N rows; the
iterated element list equals the document-order `Trackpoint` list, and
row i is parsed from the i-th such element, so document order is
preserved (N = 0 gives an empty matrix). -/
theorem c5_tcx_trackpoint_count (root : XML) (rec : ActivityRecord)
    (hv : ValidTcx root) (hok : read_tcx root = Except.ok rec) :
    rec.data.length = countTrackpoints root ∧
    tcxTrackpointElems root = docTrackpoints root ∧
    (∀ i e, (docTrackpoints root).get? i = some e →
      ∃ tp, readTcxTrackpoint e = Except.ok tp ∧ rec.data.get? i = some tp) := by
  have heq := tcx_trackpoint_elems_eq root hv
  obtain ⟨-, -, -, hmap⟩ := read_tcx_ok_inv root rec hok
  refine ⟨?_, heq, ?_⟩
  · rw [mapE_ok_length readTcxTrackpoint _ _ hmap, heq, countTrackpoints]
  · intro i e hie
    exact mapE_ok_get readTcxTrackpoint _ _ hmap i e (heq ▸ hie)

theorem c5_tcx_trackpoint_count_witness :
    (ValidTcx tcxDoc2 ∧ read_tcx tcxDoc2 = Except.ok tcxRec2 ∧
      tcxRec2.data.length = countTrackpoints tcxDoc2) ∧
    (ValidTcx tcxDoc1 ∧ read_tcx tcxDoc1 = Except.ok tcxRec1 ∧
      tcxRec1.data.length = countTrackpoints tcxDoc1) :=
  ⟨⟨by decide, rfl, (c5_tcx_trackpoint_count tcxDoc2 tcxRec2 (by decide) rfl).1⟩,
   ⟨by decide, rfl, (c5_tcx_trackpoint_count tcxDoc1 tcxRec1 (by decide) rfl).1⟩⟩
